import Mathlib

/-!
Verification development for the netFlameIoT repository.

The repository is a Python client/worker stack for a networked stove:
  * `stovectl/client.py` — `StoveClient`: HTTP CGI transport with bounded
    retries and a tolerant `key=value` response parser;
  * `NetFlame/NetFlame.py` + `NetFlame/models.py` — typed operation codec
    on top of the client (telemetry, clock, alarms, setpoint writes);
  * `stoveApp/net.py` — `StoveWorker`: discovery/polling state machine with
    a thread-safe command queue.

This file shallowly embeds the relevant code.  Python strings are modelled
as Lean `String` restricted to ASCII behaviour (`str.strip`, `str.isdigit`,
`int()` and `float()` are reimplemented below at that level of fidelity);
Python `float` is modelled as `ℚ`; `requests` I/O is modelled by an outcome
oracle per attempt; exceptions are modelled with `Except`.
-/

namespace NetFlameIoT

/-! ## Python string primitives (ASCII model) -/

/-- ASCII whitespace removed by `str.strip()`. -/
def isPySpace (c : Char) : Bool :=
  c == ' ' || c == '\t' || c == '\n' || c == '\r' || c == '\x0b' || c == '\x0c'

/-- `str.strip()`: drop leading and trailing whitespace. -/
def pyStrip (s : String) : String :=
  ⟨(((s.data.dropWhile isPySpace).reverse.dropWhile isPySpace).reverse)⟩

/-- Helper for `splitlines`: accumulates the current line (reversed). -/
def splitlinesAux : List Char → List Char → List (List Char)
  | acc, [] => [acc.reverse]
  | acc, '\r' :: '\n' :: cs =>
      acc.reverse :: (if cs.isEmpty then [] else splitlinesAux [] cs)
  | acc, '\n' :: cs =>
      acc.reverse :: (if cs.isEmpty then [] else splitlinesAux [] cs)
  | acc, '\r' :: cs =>
      acc.reverse :: (if cs.isEmpty then [] else splitlinesAux [] cs)
  | acc, c :: cs => splitlinesAux (c :: acc) cs

/-- `str.splitlines()` for the line terminators `\n`, `\r`, `\r\n`. -/
def pySplitlines (s : String) : List String :=
  if s.data.isEmpty then [] else (splitlinesAux [] s.data).map fun l => ⟨l⟩

/-- `str.isdigit()` restricted to ASCII: nonempty and all characters `0`-`9`. -/
def pyIsdigit (s : String) : Bool :=
  !s.data.isEmpty && s.data.all Char.isDigit

/-- `str.upper()` restricted to ASCII. -/
def pyUpper (s : String) : String :=
  ⟨s.data.map Char.toUpper⟩

/-- Digits possibly separated by single underscores (`digit ("_"? digit)*`),
accumulating the value; returns the value, the digit count and the rest. -/
def digitsURunAux : Nat → Nat → List Char → Nat × Nat × List Char
  | acc, k, [] => (acc, k, [])
  | acc, k, '_' :: c :: cs =>
      if c.isDigit then digitsURunAux (acc * 10 + (c.toNat - 48)) (k + 1) cs
      else (acc, k, '_' :: c :: cs)
  | acc, k, c :: cs =>
      if c.isDigit then digitsURunAux (acc * 10 + (c.toNat - 48)) (k + 1) cs
      else (acc, k, c :: cs)

/-- Longest leading digit run (Python numeric-literal underscore rules);
`none` if the input does not start with a digit. -/
def digitsURun : List Char → Option (Nat × Nat × List Char)
  | [] => none
  | c :: cs =>
      if c.isDigit then some (digitsURunAux (c.toNat - 48) 1 cs) else none

/-- Python `int(s)` on an ASCII string: optional surrounding whitespace,
optional sign, then digits (with underscore grouping).  `none` models a
raised `ValueError`. -/
def pyParseInt (s : String) : Option Int :=
  match (pyStrip s).data with
  | '+' :: rest =>
      match digitsURun rest with
      | some (n, _, []) => some (Int.ofNat n)
      | _ => none
  | '-' :: rest =>
      match digitsURun rest with
      | some (n, _, []) => some (-(Int.ofNat n))
      | _ => none
  | rest =>
      match digitsURun rest with
      | some (n, _, []) => some (Int.ofNat n)
      | _ => none

/-- Powers of ten (kept as plain structural recursion). -/
def pow10 : Nat → Nat
  | 0 => 1
  | n + 1 => 10 * pow10 n

/-- Mantissa of a Python float literal: `digits ["." [digits]] | "." digits`.
Returns the integer mantissa `m`, the number `k` of fraction digits (so
the value is `m / 10 ^ k`) and the unconsumed rest. -/
def parseMantissa (cs : List Char) : Option (Nat × Nat × List Char) :=
  match digitsURun cs with
  | some (n, _, rest) =>
      match rest with
      | '.' :: rest2 =>
          match digitsURun rest2 with
          | some (f, k, rest3) => some (n * pow10 k + f, k, rest3)
          | none => some (n, 0, rest2)
      | _ => some (n, 0, rest)
  | none =>
      match cs with
      | '.' :: rest2 =>
          match digitsURun rest2 with
          | some (f, k, rest3) => some (f, k, rest3)
          | none => none
      | _ => none

/-- Signed digit run (used for float exponents). -/
def parseSignedDigits (cs : List Char) : Option (Int × List Char) :=
  match cs with
  | '+' :: r => (digitsURun r).map fun p => ((p.1 : Int), p.2.2)
  | '-' :: r => (digitsURun r).map fun p => (-(p.1 : Int), p.2.2)
  | r => (digitsURun r).map fun p => ((p.1 : Int), p.2.2)

/-- Optional exponent part `("e"|"E") [sign] digits` of a float literal. -/
def parseExp (cs : List Char) : Option (Int × List Char) :=
  match cs with
  | 'e' :: rest => parseSignedDigits rest
  | 'E' :: rest => parseSignedDigits rest
  | _ => some (0, cs)

/-- Python `float(s)` on an ASCII numeric literal, modelled exactly in `ℚ`
(no rounding; `inf`/`nan` are out of the model).  The value
`sign * m * 10 ^ e / 10 ^ k` is assembled with a single `mkRat`.  `none`
models a raised `ValueError`. -/
def pyParseFloat (s : String) : Option ℚ :=
  let cs := (pyStrip s).data
  let signAndRest : Bool × List Char :=
    match cs with
    | '+' :: r => (false, r)
    | '-' :: r => (true, r)
    | r => (false, r)
  match parseMantissa signAndRest.2 with
  | none => none
  | some (m, k, r2) =>
      match parseExp r2 with
      | none => none
      | some (e, r3) =>
          if r3.isEmpty then
            let mi : Int := if signAndRest.1 then -(m : Int) else (m : Int)
            if 0 ≤ e then some (mkRat (mi * (pow10 e.toNat : Nat)) (pow10 k))
            else some (mkRat mi (pow10 (k + e.natAbs)))
          else none

/-! ## Insertion-ordered dictionary (Python `dict` of `str → str`) -/

/-- `d[k] = v` on an insertion-ordered dict: overwrite in place, else append. -/
def dictSet : List (String × String) → String → String → List (String × String)
  | [], k, v => [(k, v)]
  | (k', v') :: rest, k, v =>
      if k' == k then (k, v) :: rest else (k', v') :: dictSet rest k v

/-- `d.get(k)`. -/
def dictGet (d : List (String × String)) (k : String) : Option String :=
  (d.find? fun p => p.1 == k).map (·.2)

/-- `d.get(k, dflt)`. -/
def dictGetD (d : List (String × String)) (k dflt : String) : String :=
  (dictGet d k).getD dflt

/-! ## stovectl/models.py — `StoveResponse` -/

/-- `StoveResponse` (src/stovectl/models.py): parsed CGI response. -/
structure StoveResponse where
  operation_id : Int
  status_ok : Bool
  error_code : Option Int
  params : List (String × String)
  lines : List String
  raw : String
deriving DecidableEq

/-! ## stovectl/client.py — `StoveClient._parse_response` -/

/-- `ln.split("=", 1)` guarded by `"=" in ln`: split at the first `=`. -/
def splitFirstEq : List Char → Option (List Char × List Char)
  | [] => none
  | '=' :: cs => some ([], cs)
  | c :: cs => (splitFirstEq cs).map fun p => (c :: p.1, p.2)

/-- The non-empty stripped lines of the body
(`[ln.strip() for ln in raw.splitlines() if ln.strip()]`). -/
def linesOf (raw : String) : List String :=
  ((pySplitlines raw).map pyStrip).filter fun l => !l.data.isEmpty

/-- Build the `params` dict from the lines: for every line containing `=`,
split on the first `=`, strip both sides, and store when the key is
nonempty (later duplicates overwrite earlier ones). -/
def buildParams (lines : List String) : List (String × String) :=
  lines.foldl
    (fun d ln =>
      match splitFirstEq ln.data with
      | none => d
      | some (k0, v0) =>
          let k := pyStrip ⟨k0⟩
          let v := pyStrip ⟨v0⟩
          if k.data.isEmpty then d else dictSet d k v)
    []

/-- The error-code key priority list of `_parse_response`. -/
def errorKeys : List String :=
  ["error", "err", "codigo", "code", "resultado", "result"]

/-- The key scan of `_parse_response`: for each key in priority order, if
present try `int(...)`; break on the first success, ignore (`pass`) a
`ValueError` and keep searching. -/
def scanErrorKeys (params : List (String × String)) : List String → Option Int
  | [] => none
  | k :: ks =>
      match dictGet params k with
      | none => scanErrorKeys params ks
      | some v =>
          match pyParseInt v with
          | some n => some n
          | none => scanErrorKeys params ks

/-- The fallback scan of `_parse_response`: the first line with
`ln.isdigit() or (ln.startswith("-") and ln[1:].isdigit())` is converted
with `int(ln)`. -/
def lineTail (ln : String) : String :=
  match ln.data with
  | _ :: rest => ⟨rest⟩
  | [] => ""

/-- `ln.startswith("-")` at the character level. -/
def lineStartsWithMinus (ln : String) : Bool :=
  match ln.data with
  | '-' :: _ => true
  | _ => false

def scanIntLine : List String → Option Int
  | [] => none
  | ln :: rest =>
      if pyIsdigit ln || (lineStartsWithMinus ln && pyIsdigit (lineTail ln)) then
        pyParseInt ln
      else scanIntLine rest

/-- `StoveClient._parse_response` (src/stovectl/client.py, lines 306-372). -/
def parse_response (operation_id : Int) (raw : String) : StoveResponse :=
  let lines := linesOf raw
  let params := buildParams lines
  let errorCode :=
    match scanErrorKeys params errorKeys with
    | some n => some n
    | none => scanIntLine lines
  { operation_id := operation_id
    status_ok := match errorCode with | some n => n == 0 | none => true
    error_code := errorCode
    params := params
    lines := lines
    raw := raw }

/-! ## stovectl/client.py — transport loop of `send_operation`

`send_operation` and `send_operation_params` share the same retry/parse
control flow (they differ only in the form payload, which the per-attempt
outcome oracle absorbs), so one embedding covers both. -/

/-- Outcome of one `self.session.post(...)` call: either a raised
`requests.RequestException` (timeout, connection error, ...) or an HTTP
response with a status code and body. -/
inductive AttemptOutcome where
  | exc
  | response (status : Nat) (body : String)
deriving DecidableEq

/-- The exceptions `send_operation` can raise. -/
inductive SendError where
  | transport
  | protocol
  | operation (opId : Int) (code : Int)
deriving DecidableEq

/-- Observable side effects of one `send_operation` call: HTTP POSTs
performed, `time.sleep(retry_delay_s)` inter-attempt delays, and
`_parse_response` invocations. -/
structure SendTrace where
  posts : Nat
  delays : Nat
  parses : Nat
deriving DecidableEq

/-- The `for attempt in range(1, self.retries + 1)` loop of
`send_operation` (src/stovectl/client.py, lines 183-232).  `attempt` is the
1-based attempt number, the second argument the number of attempts left.
A 401 raises `StoveTransportError` immediately (re-raised by the
`except StoveTransportError` clause); `raise_for_status` turns any other
status in [400, 600) into a `requests.HTTPError`, which the
`except RequestException` clause retries with a delay while attempts
remain; a passing status is parsed and a present non-zero error code
raises `StoveOperationError`. -/
def sendLoop (opId : Int) (att : Nat → AttemptOutcome) :
    Nat → Nat → SendTrace → Except SendError StoveResponse × SendTrace
  | _, 0, tr => (.error .transport, tr)
  | attempt, remaining + 1, tr =>
      match att attempt with
      | .exc =>
          if remaining = 0 then
            (.error .transport, ⟨tr.posts + 1, tr.delays, tr.parses⟩)
          else
            sendLoop opId att (attempt + 1) remaining
              ⟨tr.posts + 1, tr.delays + 1, tr.parses⟩
      | .response s body =>
          if s = 401 then
            (.error .transport, ⟨tr.posts + 1, tr.delays, tr.parses⟩)
          else if 400 ≤ s ∧ s < 600 then
            (if remaining = 0 then
              (.error .transport, ⟨tr.posts + 1, tr.delays, tr.parses⟩)
             else
              sendLoop opId att (attempt + 1) remaining
                ⟨tr.posts + 1, tr.delays + 1, tr.parses⟩)
          else
            match (parse_response opId body).error_code with
            | some c =>
                if c = 0 then
                  (.ok (parse_response opId body),
                   ⟨tr.posts + 1, tr.delays, tr.parses + 1⟩)
                else
                  (.error (.operation opId c),
                   ⟨tr.posts + 1, tr.delays, tr.parses + 1⟩)
            | none =>
                (.ok (parse_response opId body),
                 ⟨tr.posts + 1, tr.delays, tr.parses + 1⟩)

/-- `StoveClient.send_operation` with an effective retry count `retries`
and a per-attempt transport oracle `att` (attempts numbered from 1). -/
def send_operation (retries : Nat) (opId : Int) (att : Nat → AttemptOutcome) :
    Except SendError StoveResponse × SendTrace :=
  sendLoop opId att 1 retries ⟨0, 0, 0⟩

/-- `auth_mode` values accepted by `StoveClient.__init__`. -/
inductive AuthMode where
  | auth_none
  | basic
  | digest
  | other (s : String)
deriving DecidableEq

/-- The construction-relevant state of a `StoveClient` (URL, timeout and
session configuration are I/O plumbing outside the model). -/
structure Client where
  retries : Nat
deriving DecidableEq

/-- `StoveClient.__init__` (src/stovectl/client.py, lines 69-145):
`self.retries = max(1, int(retries))`; basic/digest require a non-falsy
username and a non-`None` password, otherwise `ValueError`; an unknown
`auth_mode` raises `ValueError`. -/
def clientInit (retries : Int) (auth : AuthMode)
    (username password : Option String) : Except String Client :=
  let c : Client := { retries := (max 1 retries).toNat }
  match auth with
  | .basic =>
      if username.getD "" = "" ∨ password = none then
        .error "Basic auth requires username and password"
      else .ok c
  | .digest =>
      if username.getD "" = "" ∨ password = none then
        .error "Digest auth requires username and password"
      else .ok c
  | .auth_none => .ok c
  | .other m => .error ("Unknown auth_mode=" ++ m)

/-! ## NetFlame/models.py -/

/-- `Stove_Public_State` (src/NetFlame/models.py); the misspelled
constructor is kept as in the source. -/
inductive Stove_Public_State where
  | POWER_OFF
  | PREHEAT
  | HEATING
  | POWERED_ON
  | WAINTING_FOR_POWER_OFF
  | WAITING_FOR_PROGRAM_LOAD
  | ERROR_STATE
  | INVALID_STATE
deriving DecidableEq

/-- `Stove_State` (src/NetFlame/models.py). -/
structure Stove_State where
  state : Int
  description : String
  publicState : Stove_Public_State
deriving DecidableEq

/-- `Operative_Mode` (src/NetFlame/models.py). -/
structure Operative_Mode where
  mode : Int
  description : String
deriving DecidableEq

/-- `Alarms` (src/NetFlame/models.py). -/
structure Alarms where
  code : String
  description : String
deriving DecidableEq

/-- `Stove_Data` (src/NetFlame/models.py). -/
structure Stove_Data where
  statusOn : Bool
  operativeMode : Operative_Mode
  functionalMode : Operative_Mode
  state : Stove_State
  powerSetpoint : Int
  temperatureSetpoint : ℚ
  currentTemperature : ℚ
deriving DecidableEq

/-- The field list of the frozen dataclass `Hora`
(src/NetFlame/models.py, lines 53-67): `hh`, `mm`, `raw` — and no date
field. -/
def horaFields : List String := ["hh", "mm", "raw"]

/-! ## NetFlame/NetFlame.py -/

/-- Exceptions observable at the NetFlame layer: the three `stovectl`
exceptions plus the plain Python errors that NetFlame code can raise. -/
inductive NetErr where
  | transport
  | protocol
  | operation (opId : Int) (code : Int)
  | operationMsg (msg : String)
  | valueError
  | typeError
deriving DecidableEq

/-- Human-readable rendering used for `disconnected(reason)` payloads. -/
def errString : NetErr → String
  | .transport => "StoveTransportError"
  | .protocol => "StoveProtocolError"
  | .operation _ _ => "StoveOperationError"
  | .operationMsg m => m
  | .valueError => "ValueError"
  | .typeError =>
      "TypeError: Hora.__init__ takes 3 positional data arguments"

/-- The success path of `send_operation` for an already-received 2xx body:
parse it and enforce a present non-zero error code
(src/stovectl/client.py, lines 200-211). -/
def send_op_body (raw : String) (opId : Int) : Except NetErr StoveResponse :=
  let resp := parse_response opId raw
  match resp.error_code with
  | some c => if c = 0 then .ok resp else .error (.operation opId c)
  | none => .ok resp

/-- `NetFlame._return_state` (src/NetFlame/NetFlame.py, lines 142-172). -/
def return_state (state : Int) : Stove_State :=
  if state = -1 then
    ⟨state, "Error obteniendo estado", .INVALID_STATE⟩
  else if state = 0 then
    ⟨state, "Apagado", .POWER_OFF⟩
  else if state = 1 ∨ state = 2 ∨ state = 3 ∨ state = 4 ∨ state = 10 then
    ⟨state, "Precalentamiento", .PREHEAT⟩
  else if state = 5 ∨ state = 6 then
    ⟨state, "Inicio de combustión", .HEATING⟩
  else if state = 7 then
    ⟨state, "Estufa en marcha", .POWERED_ON⟩
  else if state = 8 ∨ state = 11 ∨ state = -3 then
    ⟨state, "Apagando estufa", .WAINTING_FOR_POWER_OFF⟩
  else if state = -20 then
    ⟨state, "A la espera de carga de programa", .WAITING_FOR_PROGRAM_LOAD⟩
  else if state = -4 then
    ⟨state, "Estufa en alarma", .ERROR_STATE⟩
  else
    ⟨state, "Estado desconocido", .INVALID_STATE⟩

/-- `NetFlame._return_operative_mode` (src/NetFlame/NetFlame.py,
lines 174-191). -/
def return_operative_mode (mode : Int) : Operative_Mode :=
  if mode = 0 then ⟨mode, "Potencia"⟩
  else if mode = 1 then ⟨mode, "Temperatura"⟩
  else if mode = -1 then ⟨mode, "Error"⟩
  else ⟨mode, "Emergencia"⟩

/-- `NetFlame._return_alarma` (src/NetFlame/NetFlame.py, lines 86-140). -/
def return_alarma (alarmCode : String) : Alarms :=
  if alarmCode = "N" then ⟨alarmCode, "No hay alarmas"⟩
  else if alarmCode = "A000" then ⟨alarmCode, "Estufa apagada con alarma"⟩
  else if alarmCode = "A001" then ⟨alarmCode, "Depresion entrada de aire baja"⟩
  else if alarmCode = "A002" then ⟨alarmCode, "Depresion entrada de aire alta"⟩
  else if alarmCode = "A003" then ⟨alarmCode, "Temperatura salida de gases baja"⟩
  else if alarmCode = "A004" then ⟨alarmCode, "Temperatura salida de gases alta"⟩
  else if alarmCode = "A005" then ⟨alarmCode, "Temperatura sonda NTC baja"⟩
  else if alarmCode = "A006" then ⟨alarmCode, "Temperatura sonda NTC alta"⟩
  else if alarmCode = "A009" then ⟨alarmCode, "Temperatura ambiente baja"⟩
  else if alarmCode = "A010" then ⟨alarmCode, "Temperatura ambiente alta"⟩
  else if alarmCode = "A011" then ⟨alarmCode, "Temperatura CPU baja"⟩
  else if alarmCode = "A012" then ⟨alarmCode, "Temperatura CPU alta"⟩
  else if alarmCode = "A013" then ⟨alarmCode, "Corriente motores baja"⟩
  else if alarmCode = "A014" then ⟨alarmCode, "Corriente motores alta"⟩
  else if alarmCode = "A015" then ⟨alarmCode, "Depresion entrada de aire baja"⟩
  else if alarmCode = "A016" then ⟨alarmCode, "Temperatura salida de gases muy alta"⟩
  else if alarmCode = "A017" then ⟨alarmCode, "Temperatura sonda NTC muy alta"⟩
  else if alarmCode = "A018" then ⟨alarmCode, "Fallo ventilador de humos"⟩
  else if alarmCode = "A019" then ⟨alarmCode, "Ventilador a capacidad maxima"⟩
  else if alarmCode = "A020" then ⟨alarmCode, "Error en sondas"⟩
  else if alarmCode = "A099" then ⟨alarmCode, "Estufa sin combustible"⟩
  else ⟨alarmCode, "Alarma desconocida"⟩

/-- The two mutable NetFlame attributes `_stoveInternalState` and
`_stoveInternalOperativeMode`. -/
structure ClientState where
  stoveInternalState : Int
  stoveInternalOperativeMode : Int
deriving DecidableEq

/-- `NetFlame.__init__` sets both cached attributes to `-1` ("unknown")
before any read occurs (src/NetFlame/NetFlame.py, lines 75-84). -/
def netFlameInitCache : ClientState := ⟨-1, -1⟩

/-- The functional-mode computation of `NetFlame.get_data`
(src/NetFlame/NetFlame.py, lines 298-310): when the primary mode is 1 the
secondary raw field `modo_func` is parsed (default "-1"), otherwise a
fixed descriptor is chosen. -/
def functional_mode_of (params : List (String × String)) (mode : Int) :
    Except NetErr Operative_Mode :=
  if mode = 1 then
    match pyParseInt (dictGetD params "modo_func" "-1") with
    | none => .error .valueError
    | some funcMode =>
        .ok (if funcMode = 1 then ⟨funcMode, "Temperatura"⟩
             else if funcMode = -1 then ⟨funcMode, "Error"⟩
             else ⟨funcMode, "Potencia"⟩)
  else if mode = -1 then .ok ⟨-1, "Error"⟩
  else .ok ⟨0, "Potencia"⟩

/-- `NetFlame.get_data` (src/NetFlame/NetFlame.py, lines 282-321) applied
to a received telemetry body, threading the cached attributes: parse mode,
build the functional mode, assign `_stoveInternalState`/
`_stoveInternalOperativeMode`, then build `Stove_Data` (whose argument
parses can still raise `ValueError` after the cache was updated). -/
def get_data_cached (c : ClientState) (raw : String) :
    ClientState × Except NetErr Stove_Data :=
  match send_op_body raw 1002 with
  | .error e => (c, .error e)
  | .ok resp =>
      match pyParseInt (dictGetD resp.params "modo_operacion" "-1") with
      | none => (c, .error .valueError)
      | some mode =>
          match functional_mode_of resp.params mode with
          | .error e => (c, .error e)
          | .ok functionalMode =>
              match pyParseInt (dictGetD resp.params "estado" "-1") with
              | none => (c, .error .valueError)
              | some estado =>
                  let c' : ClientState := ⟨estado, mode⟩
                  match pyParseInt (dictGetD resp.params "consigna_potencia" "0") with
                  | none => (c', .error .valueError)
                  | some potencia =>
                      match pyParseFloat (dictGetD resp.params "consigna_temperatura" "0") with
                      | none => (c', .error .valueError)
                      | some consignaTemp =>
                          match pyParseFloat (dictGetD resp.params "temperatura" "0") with
                          | none => (c', .error .valueError)
                          | some temp =>
                              (c', .ok
                                { statusOn := dictGetD resp.params "on_off" "0" == "1"
                                  operativeMode := return_operative_mode mode
                                  functionalMode := functionalMode
                                  state := return_state estado
                                  powerSetpoint := potencia
                                  temperatureSetpoint := consignaTemp
                                  currentTemperature := temp })

/-- The new temperature computed by `NetFlame.increase_temperature`
(src/NetFlame/NetFlame.py, lines 400-417): only the upper bound 40 is
clamped. -/
def new_temp_increase (setpoint delta : ℚ) : ℚ :=
  let t := setpoint + delta
  if t > 40 then 40 else t

/-- The new temperature computed by `NetFlame.decrease_temperature`
(lines 418-433): only the lower bound 12 is clamped. -/
def new_temp_decrease (setpoint delta : ℚ) : ℚ :=
  let t := setpoint - delta
  if t < 12 then 12 else t

/-- The new power computed by `NetFlame.increase_power` (lines 435-449):
only the upper bound 9 is clamped. -/
def new_power_increase (p : Int) : Int :=
  let q := p + 1
  if q > 9 then 9 else q

/-- The new power computed by `NetFlame.decrease_power` (lines 450-463):
only the lower bound 1 is clamped. -/
def new_power_decrease (p : Int) : Int :=
  let q := p - 1
  if q < 1 then 1 else q

/-- `NetFlame.increase_temperature`: refresh telemetry with `get_data`,
then the value sent in the `temperatura` field of the SET_TEMPERATURE
operation. -/
def increase_temperature_sent (c : ClientState) (raw : String) (delta : ℚ) :
    Except NetErr ℚ :=
  match get_data_cached c raw with
  | (_, .ok d) => .ok (new_temp_increase d.temperatureSetpoint delta)
  | (_, .error e) => .error e

/-- `NetFlame.decrease_temperature`: the value sent after the telemetry
refresh. -/
def decrease_temperature_sent (c : ClientState) (raw : String) (delta : ℚ) :
    Except NetErr ℚ :=
  match get_data_cached c raw with
  | (_, .ok d) => .ok (new_temp_decrease d.temperatureSetpoint delta)
  | (_, .error e) => .error e

/-- `NetFlame.increase_power`: the value sent in the `potencia` field
after the telemetry refresh. -/
def increase_power_sent (c : ClientState) (raw : String) :
    Except NetErr Int :=
  match get_data_cached c raw with
  | (_, .ok d) => .ok (new_power_increase d.powerSetpoint)
  | (_, .error e) => .error e

/-- `NetFlame.decrease_power`: the value sent after the telemetry
refresh. -/
def decrease_power_sent (c : ClientState) (raw : String) :
    Except NetErr Int :=
  match get_data_cached c raw with
  | (_, .ok d) => .ok (new_power_decrease d.powerSetpoint)
  | (_, .error e) => .error e

/-- The wall-clock tuple produced by converting an epoch instant to the
display timezone (the `datetime`/`zoneinfo` collaborator, kept abstract). -/
structure MadridTime where
  hour : Int
  minute : Int
  hhmm : String
  dateLabel : String

/-- A Python value passed positionally to a dataclass constructor. -/
inductive PyVal where
  | int (n : Int)
  | str (s : String)
deriving DecidableEq

/-- Calling a frozen dataclass constructor with positional arguments:
binds them to the field list, or raises `TypeError` when the arities
differ. -/
def dataclassCall (fields : List String) (args : List PyVal) :
    Except NetErr (List (String × PyVal)) :=
  if args.length = fields.length then .ok (fields.zip args)
  else .error .typeError

/-- The four positional arguments `NetFlame.get_hour` passes to
`Hora(...)` (src/NetFlame/NetFlame.py, lines 224-229). -/
def getHourHoraArgs (t : MadridTime) : List PyVal :=
  [.int t.hour, .int t.minute, .str t.hhmm, .str t.dateLabel]

/-- `NetFlame.get_hour` (src/NetFlame/NetFlame.py, lines 193-229) applied
to a received body; `tz` abstracts the epoch-to-Madrid conversion.  A
missing `int_rx` raises `StoveOperationError`; a bad timestamp raises
`StoveOperationError`; the final `Hora(...)` call binds four positional
arguments against the three-field dataclass. -/
def get_hour (tz : Int → MadridTime) (raw : String) :
    Except NetErr (List (String × PyVal)) :=
  match send_op_body raw 1094 with
  | .error e => .error e
  | .ok resp =>
      match dictGet resp.params "int_rx" with
      | none =>
          .error (.operationMsg ("int_rx not present in response: " ++ resp.raw))
      | some unixTime =>
          match pyParseInt unixTime with
          | none =>
              .error (.operationMsg ("invalid unix timestamp: " ++ unixTime))
          | some n => dataclassCall horaFields (getHourHoraArgs (tz n))

/-- `NetFlame.get_alarms` applied to a received body
(src/NetFlame/NetFlame.py, lines 242-250). -/
def get_alarms_body (raw : String) : Except NetErr Alarms :=
  (send_op_body raw 1079).map fun resp =>
    return_alarma (dictGetD resp.params "get_alarmas" "N")

/-! ## stoveApp/net.py — `StoveWorker` -/

/-- Events emitted by the worker (Qt signals `connected`, `disconnected`,
`snapshot`, `log`). -/
inductive Event where
  | connected (ip : String)
  | disconnected (reason : String)
  | snapshotEv
  | logmsg (msg : String)
deriving DecidableEq

/-- Queue items (`self._cmd_queue`): `("inc", delta)`, `("dec", delta)`,
`("power", bool)`, `("mode", bool)`. -/
inductive Cmd where
  | inc (delta : ℚ)
  | dec (delta : ℚ)
  | power (b : Bool)
  | mode (b : Bool)
deriving DecidableEq

/-- The NetFlame method a queued command dispatches to. -/
inductive CmdAction where
  | incPower
  | incTemp (delta : ℚ)
  | decPower
  | decTemp (delta : ℚ)
  | powerOn
  | powerOff
  | setTempMode
  | setPowerMode
deriving DecidableEq

/-- The dispatch logic of `StoveWorker._process_commands`
(src/stoveApp/net.py, lines 305-341): `inc`/`dec` are skipped
(`continue`) when the cached operative mode is `-1`, go to the power
methods when it is `0` and to the temperature methods otherwise; `power`
maps its boolean to `power_on`/`power_off`; `mode` toggles only when its
boolean is true.  `none` means no method is invoked. -/
def dispatchCmd (cachedMode : Int) : Cmd → Option CmdAction
  | .inc d =>
      if cachedMode = -1 then none
      else if cachedMode = 0 then some .incPower
      else some (.incTemp d)
  | .dec d =>
      if cachedMode = -1 then none
      else if cachedMode = 0 then some .decPower
      else some (.decTemp d)
  | .power b => some (if b then .powerOn else .powerOff)
  | .mode b =>
      if b then some (if cachedMode = 0 then .setTempMode else .setPowerMode)
      else none

/-- The `self.log.emit(...)` line preceding each dispatched method call
(the `power` branch has none). -/
def actionLogMsg : CmdAction → Option String
  | .incPower => some "Increasing power..."
  | .incTemp _ => some "Increasing temperature..."
  | .decPower => some "Decreasing power..."
  | .decTemp _ => some "Decreasing temperature..."
  | .setTempMode => some "Switching to temperature mode..."
  | .setPowerMode => some "Switching to power mode..."
  | .powerOn => none
  | .powerOff => none

/-- Per-command record of how the drain handled a queue entry. -/
inductive CmdDisposition where
  | skipped
  | applied (a : CmdAction)
  | failed (a : CmdAction) (msg : String)
deriving DecidableEq

/-- The `for cmd, val in cmds` loop of `StoveWorker._process_commands`
(src/stoveApp/net.py, lines 305-343).  `exec` gives, for the i-th drained
command's dispatched method call, the client cache after the call and
either success or the message of the raised exception; a raised exception
is caught by the per-command `except`, logged, and the loop continues.
Returns the final cache, the emitted events and one disposition per
command. -/
def runCmds (exec : Nat → CmdAction → ClientState × Except String Unit) :
    ClientState → Nat → List Cmd →
    ClientState × List Event × List CmdDisposition
  | c, _, [] => (c, [], [])
  | c, i, cmd :: rest =>
      match dispatchCmd c.stoveInternalOperativeMode cmd with
      | none =>
          let r := runCmds exec c (i + 1) rest
          (r.1, r.2.1, .skipped :: r.2.2)
      | some a =>
          let pre : List Event :=
            match actionLogMsg a with
            | some m => [.logmsg m]
            | none => []
          let step := exec i a
          match step.2 with
          | .ok _ =>
              let r := runCmds exec step.1 (i + 1) rest
              (r.1, pre ++ r.2.1, .applied a :: r.2.2)
          | .error msg =>
              let r := runCmds exec step.1 (i + 1) rest
              (r.1, pre ++ [.logmsg ("Command error: " ++ msg)] ++ r.2.1,
               .failed a msg :: r.2.2)

/-- The observable worker state: stop flag, client (with its cached
attributes), discovered ip, and which of the two mutually exclusive
timers is running. -/
structure WorkerState where
  stop : Bool
  client : Option ClientState
  ip : String
  discoveryOn : Bool
  pollOn : Bool
deriving DecidableEq

/-- `StoveWorker._discover_ip` (src/stoveApp/net.py, lines 256-273):
first scan entry whose `mac` (with `None`/empty coalesced to `""` and
upper-cased) equals the upper-cased reference MAC; `""` when none
matches. -/
def discover_ip (refMac : String) (devices : List (String × Option String)) :
    String :=
  match devices.find? fun d => pyUpper (d.2.getD "") == pyUpper refMac with
  | some d => d.1
  | none => ""

/-- `get_data` through the transport: `res` is the transport outcome for
the telemetry POST (error, or the received body which is then parsed and
decoded). -/
def get_data_http (c : ClientState) (res : Except NetErr String) :
    ClientState × Except NetErr Stove_Data :=
  match res with
  | .error e => (c, .error e)
  | .ok raw => get_data_cached c raw

/-- `get_alarms` through the transport. -/
def get_alarms_http (res : Except NetErr String) : Except NetErr Alarms :=
  match res with
  | .error e => .error e
  | .ok raw => get_alarms_body raw

/-- `get_hour` through the transport. -/
def get_hour_http (tz : Int → MadridTime) (res : Except NetErr String) :
    Except NetErr (List (String × PyVal)) :=
  match res with
  | .error e => .error e
  | .ok raw => get_hour tz raw

/-- `StoveWorker._tick_discovery` (src/stoveApp/net.py, lines 144-188):
no-op when stopped or already connected; scan and match the reference
MAC; on a match, construct a fresh NetFlame client (cached fields reset
to `-1`) and validate it with one `get_data`; success emits
`connected(ip)`, stops the discovery timer and starts the poll timer;
any failure emits `disconnected`, discards the client and leaves the
discovery timer running.  `valBody` is the transport outcome of the
validation read. -/
def tick_discovery (refMac : String) (st : WorkerState)
    (devices : List (String × Option String))
    (valBody : Except NetErr String) : WorkerState × List Event :=
  if st.stop || st.client.isSome then (st, [])
  else
    let evs : List Event := [.logmsg "Searching stove on the LAN..."]
    let ip := discover_ip refMac devices
    if ip = "" then (st, evs)
    else
      match get_data_http netFlameInitCache valBody with
      | (c1, .ok _) =>
          ({ st with ip := ip, client := some c1,
                     discoveryOn := false, pollOn := true },
           evs ++ [.connected ip, .logmsg ("Connected to stove at " ++ ip)])
      | (_, .error e) =>
          ({ st with client := none, ip := "" },
           evs ++ [.disconnected (errString e),
                   .logmsg ("Connection error: " ++ errString e)])

/-- The failure branch of `StoveWorker._tick_poll`: emit
`disconnected(reason)`, stop the poll timer, discard the client and
restart discovery; the queue was already drained. -/
def disconnectPoll (st : WorkerState) (evs : List Event) (reason : String)
    (disp : List CmdDisposition) :
    WorkerState × List Event × List Cmd × List CmdDisposition :=
  ({ st with pollOn := false, client := none, ip := "",
             discoveryOn := true },
   evs ++ [.disconnected reason,
           .logmsg ("Disconnected: " ++ reason ++ ". Retrying...")],
   [], disp)

/-- The read-and-snapshot phase of `StoveWorker._tick_poll`
(src/stoveApp/net.py, lines 208-241): telemetry, alarms and clock reads
in that order, then the snapshot construction (which reads
`clientTime.date`, a field `Hora` does not provide); the first exception
disconnects.  `c1` is the client cache after the drain, `cevs` the drain
events and `disp` the drain dispositions. -/
def tick_poll_reads (tz : Int → MadridTime) (st : WorkerState)
    (c1 : ClientState) (cevs : List Event) (disp : List CmdDisposition)
    (dataRes alarmRes hourRes : Except NetErr String) :
    WorkerState × List Event × List Cmd × List CmdDisposition :=
  match get_data_http c1 dataRes with
  | (c2, .ok _data) =>
      (match get_alarms_http alarmRes with
       | .ok _alarms =>
           (match get_hour_http tz hourRes with
            | .ok hora =>
                -- snapshot construction reads `clientTime.date`
                (match hora.find? (fun p => p.1 == "date") with
                 | some _ =>
                     ({ st with client := some c2 },
                      cevs ++ [.snapshotEv], [], disp)
                 | none =>
                     disconnectPoll st cevs "AttributeError: date" disp)
            | .error e => disconnectPoll st cevs (errString e) disp)
       | .error e => disconnectPoll st cevs (errString e) disp)
  | (_, .error e) => disconnectPoll st cevs (errString e) disp

/-- `StoveWorker._tick_poll` (src/stoveApp/net.py, lines 190-241): no-op
when stopped or not connected (queue untouched); otherwise drain and
apply the queued commands (`_process_commands`), then perform the read
phase.  Returns the post state, the events, the new queue contents and
the per-command dispositions of the drain. -/
def tick_poll (tz : Int → MadridTime) (st : WorkerState) (queue : List Cmd)
    (exec : Nat → CmdAction → ClientState × Except String Unit)
    (dataRes alarmRes hourRes : Except NetErr String) :
    WorkerState × List Event × List Cmd × List CmdDisposition :=
  if st.stop then (st, [], queue, [])
  else
    match st.client with
    | none => (st, [], queue, [])
    | some c =>
        tick_poll_reads tz st (runCmds exec c 0 queue).1
          (runCmds exec c 0 queue).2.1 (runCmds exec c 0 queue).2.2
          dataRes alarmRes hourRes

/-! ## Spec-side definitions (for refinement claims)

These follow the wording of the specification and are compared against the
code-level embedding above. -/

/-- Spec wording (§4.2): check the keys in priority order; the first key
present whose value parses as an integer becomes the error code; a
non-numeric value for an earlier key is skipped. -/
def specErrorCodeKeys (params : List (String × String)) : Option Int :=
  errorKeys.findSome? fun k => (dictGet params k).bind pyParseInt

/-- Spec wording: a line that is "a plain integer (optionally negative)". -/
def specPlainIntLine (ln : String) : Bool :=
  pyIsdigit ln || (lineStartsWithMinus ln && pyIsdigit (lineTail ln))

/-- Spec wording (§4.2): key scan first; if no key yields an error code,
the first line that is a plain integer becomes the error code; otherwise
the error code is absent. -/
def specInferErrorCode (params : List (String × String))
    (lines : List String) : Option Int :=
  match specErrorCodeKeys params with
  | some n => some n
  | none => (lines.find? specPlainIntLine).bind pyParseInt

/-! ## Helper lemmas -/

theorem scanErrorKeys_eq_findSome (params : List (String × String)) :
    ∀ ks : List String,
      scanErrorKeys params ks =
        ks.findSome? fun k => (dictGet params k).bind pyParseInt := by
  intro ks
  induction ks with
  | nil => rfl
  | cons k ks ih =>
      rw [scanErrorKeys, List.findSome?_cons]
      cases hget : dictGet params k with
      | none => simpa [hget] using ih
      | some v =>
          cases hint : pyParseInt v with
          | none => simpa [hget, hint] using ih
          | some n => simp [hget, hint]

theorem scanIntLine_eq_find : ∀ lines : List String,
    scanIntLine lines = (lines.find? specPlainIntLine).bind pyParseInt := by
  intro lines
  induction lines with
  | nil => rfl
  | cons ln rest ih =>
      have hg : (pyIsdigit ln || (lineStartsWithMinus ln && pyIsdigit (lineTail ln)))
          = specPlainIntLine ln := rfl
      rw [scanIntLine, hg]
      by_cases h : specPlainIntLine ln = true
      · rw [if_pos h, List.find?_cons_of_pos _ h, Option.some_bind]
      · have hf : ¬ specPlainIntLine ln = true := h
        rw [if_neg hf, List.find?_cons_of_neg _ hf, ih]

/-- Skipping `k` consecutive transient failures: the loop advances `k`
attempts, performing `k` POSTs and `k` delays. -/
theorem sendLoop_skip (opId : Int) (att : Nat → AttemptOutcome) :
    ∀ (k attempt rem : Nat) (tr : SendTrace),
      (∀ i, attempt ≤ i → i < attempt + k → att i = .exc) → k + 1 ≤ rem →
      sendLoop opId att attempt rem tr =
        sendLoop opId att (attempt + k) (rem - k)
          ⟨tr.posts + k, tr.delays + k, tr.parses⟩ := by
  intro k
  induction k with
  | zero =>
      intro attempt rem tr _ _
      cases tr
      simp
  | succ k ih =>
      intro attempt rem tr hexc hrem
      obtain ⟨rem', rfl⟩ : ∃ r, rem = r + 1 :=
        ⟨rem - 1, by omega⟩
      rw [sendLoop]
      simp only [hexc attempt (Nat.le_refl _) (by omega)]
      rw [if_neg (show ¬ rem' = 0 by omega)]
      rw [ih (attempt + 1) rem' ⟨tr.posts + 1, tr.delays + 1, tr.parses⟩
            (fun i h1 h2 => hexc i (by omega) (by omega)) (by omega)]
      have h1 : attempt + 1 + k = attempt + (k + 1) := by omega
      have h2 : rem' - k = rem' + 1 - (k + 1) := by omega
      have h3 : tr.posts + 1 + k = tr.posts + (k + 1) := by omega
      have h4 : tr.delays + 1 + k = tr.delays + (k + 1) := by omega
      rw [h1, h2, h3, h4]

/-- C1: with every one of the N POST attempts raising a transient
transport exception, `send_operation` on a client configured with
`retries = N` (N ≥ 1) raises exactly one `StoveTransportError` after the
N-th attempt, sleeps exactly N-1 inter-attempt delays, and never invokes
the response parser. -/
theorem send_operation_all_transient (N : Nat) (opId : Int)
    (att : Nat → AttemptOutcome) (hN : 1 ≤ N)
    (hatt : ∀ i, att i = .exc) :
    send_operation N opId att = (.error .transport, ⟨N, N - 1, 0⟩) := by
  rw [send_operation]
  rw [sendLoop_skip opId att (N - 1) 1 N ⟨0, 0, 0⟩
        (fun i _ _ => hatt i) (by omega)]
  obtain ⟨h1, h2⟩ : N - (N - 1) = 0 + 1 ∧ 1 + (N - 1) = N := by omega
  rw [h1, h2, sendLoop]
  simp only [hatt N]
  simp only [if_true]
  show ((.error .transport, ⟨0 + (N - 1) + 1, 0 + (N - 1), 0⟩) :
      Except SendError StoveResponse × SendTrace) = (.error .transport, ⟨N, N - 1, 0⟩)
  rw [show 0 + (N - 1) + 1 = N by omega, show 0 + (N - 1) = N - 1 by omega]

/-- C1 witness: three timeouts on a 3-retry client yield one transport
error, three POSTs, two delays and zero parser calls. -/
theorem send_operation_all_transient_witness :
    send_operation 3 1002 (fun _ => .exc) = (.error .transport, ⟨3, 2, 0⟩) :=
  send_operation_all_transient 3 1002 (fun _ => .exc) (by decide)
    (fun _ => rfl)

/-- C2: the parser infers the error code exactly as specified — the keys
`error`, `err`, `codigo`, `code`, `resultado`, `result` in that priority
order, taking the first key present whose value parses as an integer
(non-numeric values are skipped, scanning stops at the first success);
failing that, the first line that is a plain integer (optionally
negative); otherwise the error code is absent.  Concrete instances ground
the key-skipping and the line fallback. -/
theorem parse_response_error_code_spec (opId : Int) (raw : String) :
    (parse_response opId raw).error_code =
      specInferErrorCode (parse_response opId raw).params
        (parse_response opId raw).lines
    ∧ (parse_response opId "error=abc\nerr=5\n").error_code = some 5
    ∧ (parse_response opId "hello\n-7\n").error_code = some (-7)
    ∧ (parse_response opId "x=1\n").error_code = none := by
  refine ⟨?_, rfl, rfl, rfl⟩
  show (parse_response opId raw).error_code =
    specInferErrorCode (buildParams (linesOf raw)) (linesOf raw)
  rw [parse_response, specInferErrorCode, specErrorCodeKeys]
  rw [← scanErrorKeys_eq_findSome, ← scanIntLine_eq_find]

/-- C3: a 401 response raises `StoveTransportError` immediately on the
attempt that observes it (here attempt k, after k-1 transient failures),
with no further POST, no delay on that attempt and the parser never
invoked — for any attempt number 1 ≤ k ≤ N. -/
theorem send_operation_401_immediate (N k : Nat) (opId : Int)
    (body : String) (att : Nat → AttemptOutcome)
    (hk1 : 1 ≤ k) (hkN : k ≤ N)
    (hatt : ∀ i, 1 ≤ i → i < k → att i = .exc)
    (h401 : att k = .response 401 body) :
    send_operation N opId att = (.error .transport, ⟨k, k - 1, 0⟩) := by
  rw [send_operation]
  rw [sendLoop_skip opId att (k - 1) 1 N ⟨0, 0, 0⟩
        (fun i hi1 hi2 => hatt i hi1 (by omega)) (by omega)]
  have h2 : 1 + (k - 1) = k := by omega
  obtain ⟨rem', hrem⟩ : ∃ r, N - (k - 1) = r + 1 := ⟨N - k, by omega⟩
  rw [h2, hrem, sendLoop]
  simp only [h401]
  simp only [if_true]
  show ((.error .transport, ⟨0 + (k - 1) + 1, 0 + (k - 1), 0⟩) :
      Except SendError StoveResponse × SendTrace) = (.error .transport, ⟨k, k - 1, 0⟩)
  rw [show 0 + (k - 1) + 1 = k by omega, show 0 + (k - 1) = k - 1 by omega]

/-- C3 witness: 401 on the second attempt of a 3-retry client (after one
timeout) raises immediately: two POSTs, one delay, no parse. -/
theorem send_operation_401_immediate_witness :
    send_operation 3 1002
        (fun i => if i = 1 then .exc else .response 401 "denied")
      = (.error .transport, ⟨2, 1, 0⟩) :=
  send_operation_401_immediate 3 2 1002 "denied"
    (fun i => if i = 1 then .exc else .response 401 "denied")
    (by decide) (by decide)
    (fun i h1 h2 => by
      have : i = 1 := by omega
      simp [this])
    (by decide)

/-- C4: when the HTTP round-trip succeeds (status < 400) on attempt k,
a parsed error code that is present and non-zero raises
`StoveOperationError` carrying that code and the operation, with no
further attempt; an absent or zero error code returns the parsed
response instead; and the body "error=3\n" parses to error code 3 for
any operation. -/
theorem send_operation_error_code (N k : Nat) (opId : Int) (s : Nat)
    (body : String) (att : Nat → AttemptOutcome)
    (hk1 : 1 ≤ k) (hkN : k ≤ N)
    (hatt : ∀ i, 1 ≤ i → i < k → att i = .exc)
    (hresp : att k = .response s body) (hs : s < 400) :
    (∀ c, (parse_response opId body).error_code = some c → c ≠ 0 →
        send_operation N opId att =
          (.error (.operation opId c), ⟨k, k - 1, 1⟩))
    ∧ ((parse_response opId body).error_code = none ∨
        (parse_response opId body).error_code = some 0 →
        send_operation N opId att =
          (.ok (parse_response opId body), ⟨k, k - 1, 1⟩))
    ∧ (parse_response opId "error=3\n").error_code = some 3 := by
  have hbase : send_operation N opId att =
      sendLoop opId att k (N - (k - 1)) ⟨0 + (k - 1), 0 + (k - 1), 0⟩ := by
    rw [send_operation]
    rw [sendLoop_skip opId att (k - 1) 1 N ⟨0, 0, 0⟩
          (fun i hi1 hi2 => hatt i hi1 (by omega)) (by omega)]
    rw [show 1 + (k - 1) = k by omega]
  obtain ⟨rem', hrem⟩ : ∃ r, N - (k - 1) = r + 1 := ⟨N - k, by omega⟩
  rw [hrem, sendLoop] at hbase
  simp only [hresp] at hbase
  rw [if_neg (show ¬ s = 401 by omega)] at hbase
  rw [if_neg (show ¬ (400 ≤ s ∧ s < 600) by omega)] at hbase
  refine ⟨?_, ?_, rfl⟩
  · intro c hc hc0
    rw [hbase]
    simp only [hc]
    rw [if_neg hc0]
    show ((.error (.operation opId c), ⟨0 + (k - 1) + 1, 0 + (k - 1), 0 + 1⟩) :
        Except SendError StoveResponse × SendTrace)
      = (.error (.operation opId c), ⟨k, k - 1, 1⟩)
    rw [show 0 + (k - 1) + 1 = k by omega, show 0 + (k - 1) = k - 1 by omega]
  · rintro (hc | hc) <;> rw [hbase] <;> simp only [hc]
    · show ((.ok (parse_response opId body),
          ⟨0 + (k - 1) + 1, 0 + (k - 1), 0 + 1⟩) :
          Except SendError StoveResponse × SendTrace)
        = (.ok (parse_response opId body), ⟨k, k - 1, 1⟩)
      rw [show 0 + (k - 1) + 1 = k by omega, show 0 + (k - 1) = k - 1 by omega]
    · simp only [if_true]
      show ((.ok (parse_response opId body),
          ⟨0 + (k - 1) + 1, 0 + (k - 1), 0 + 1⟩) :
          Except SendError StoveResponse × SendTrace)
        = (.ok (parse_response opId body), ⟨k, k - 1, 1⟩)
      rw [show 0 + (k - 1) + 1 = k by omega, show 0 + (k - 1) = k - 1 by omega]

/-- C4 witness: the body "error=3\n" received with status 200 on the
first attempt raises `StoveOperationError` with code 3 and the write
operation code 1013, after one POST, zero delays and one parse. -/
theorem send_operation_error_code_witness :
    send_operation 3 1013 (fun _ => .response 200 "error=3\n")
      = (.error (.operation 1013 3), ⟨1, 0, 1⟩) :=
  (send_operation_error_code 3 1 1013 200 "error=3\n"
      (fun _ => .response 200 "error=3\n")
      (by decide) (by decide) (fun i h1 h2 => absurd h2 (by omega))
      rfl (by decide)).1 3 rfl (by decide)

/-- C5 (counterexample): a discovery tick whose scan matches the reference
MAC (case-insensitively) and whose validation read succeeds with telemetry
`estado=7`, `modo_operacion=1` reaches Polling — discovery stopped, poll
started, connected emitted — but the cached last-known state/mode fields
hold the values of the validation read (⟨7, 1⟩), not the "unknown" reset
value: the claim's conjunction "reaches Polling (…cached fields reset to
unknown) iff validation succeeds" is false at this input. -/
theorem tick_discovery_cache_counterexample :
    (tick_discovery "AA:BB:CC:DD:EE:FF" ⟨false, none, "", true, false⟩
        [("192.168.1.50", some "aa:bb:cc:dd:ee:ff")]
        (.ok "estado=7\non_off=1\nmodo_operacion=1\n")).1.pollOn = true
    ∧ (tick_discovery "AA:BB:CC:DD:EE:FF" ⟨false, none, "", true, false⟩
        [("192.168.1.50", some "aa:bb:cc:dd:ee:ff")]
        (.ok "estado=7\non_off=1\nmodo_operacion=1\n")).1.discoveryOn = false
    ∧ Event.connected "192.168.1.50" ∈
        (tick_discovery "AA:BB:CC:DD:EE:FF" ⟨false, none, "", true, false⟩
          [("192.168.1.50", some "aa:bb:cc:dd:ee:ff")]
          (.ok "estado=7\non_off=1\nmodo_operacion=1\n")).2
    ∧ (tick_discovery "AA:BB:CC:DD:EE:FF" ⟨false, none, "", true, false⟩
        [("192.168.1.50", some "aa:bb:cc:dd:ee:ff")]
        (.ok "estado=7\non_off=1\nmodo_operacion=1\n")).1.client = some ⟨7, 1⟩
    ∧ (⟨7, 1⟩ : ClientState) ≠ netFlameInitCache := by
  refine ⟨rfl, rfl, ?_, rfl, by decide⟩
  show Event.connected "192.168.1.50" ∈
    ([.logmsg "Searching stove on the LAN...",
      .connected "192.168.1.50",
      .logmsg "Connected to stove at 192.168.1.50"] : List Event)
  exact List.mem_cons_of_mem _ (List.mem_cons_self _ _)

/-- Unfolding of a matching discovery tick whose validation succeeds. -/
theorem tick_discovery_unfold_ok (refMac : String) (st : WorkerState)
    (devices : List (String × Option String)) (valBody : Except NetErr String)
    (c1 : ClientState) (d : Stove_Data)
    (hstop : st.stop = false) (hclient : st.client = none)
    (hmatch : discover_ip refMac devices ≠ "")
    (hgd : get_data_http netFlameInitCache valBody = (c1, .ok d)) :
    tick_discovery refMac st devices valBody =
      ({ st with ip := discover_ip refMac devices, client := some c1,
                 discoveryOn := false, pollOn := true },
       [.logmsg "Searching stove on the LAN...",
        .connected (discover_ip refMac devices),
        .logmsg ("Connected to stove at " ++ discover_ip refMac devices)]) := by
  have hcond : (st.stop || st.client.isSome) = false := by
    rw [hstop, hclient]
    rfl
  rw [tick_discovery, hcond]
  simp only [Bool.false_eq_true, if_false]
  rw [if_neg hmatch]
  simp only [hgd, List.singleton_append]

/-- Unfolding of a matching discovery tick whose validation fails. -/
theorem tick_discovery_unfold_err (refMac : String) (st : WorkerState)
    (devices : List (String × Option String)) (valBody : Except NetErr String)
    (c1 : ClientState) (e : NetErr)
    (hstop : st.stop = false) (hclient : st.client = none)
    (hmatch : discover_ip refMac devices ≠ "")
    (hgd : get_data_http netFlameInitCache valBody = (c1, .error e)) :
    tick_discovery refMac st devices valBody =
      ({ st with client := none, ip := "" },
       [.logmsg "Searching stove on the LAN...",
        .disconnected (errString e),
        .logmsg ("Connection error: " ++ errString e)]) := by
  have hcond : (st.stop || st.client.isSome) = false := by
    rw [hstop, hclient]
    rfl
  rw [tick_discovery, hcond]
  simp only [Bool.false_eq_true, if_false]
  rw [if_neg hmatch]
  simp only [hgd, List.singleton_append]

/-- C5 (amended): on a discovery tick with a MAC match, the validation
telemetry read is performed on that tick starting from a freshly
constructed client whose cached fields are reset to unknown (-1, -1); the
machine reaches Polling (discovery stopped, poll started, connected event
with the address) iff that read succeeds, and then the cached fields hold
the values of the validation read; any validation failure emits a
disconnected event, discards the client, and leaves the machine in
Searching with the discovery timer still running. -/
theorem tick_discovery_amended (refMac : String) (st : WorkerState)
    (devices : List (String × Option String)) (valBody : Except NetErr String)
    (hstop : st.stop = false) (hclient : st.client = none)
    (hpoll : st.pollOn = false) (hdisc : st.discoveryOn = true)
    (hmatch : discover_ip refMac devices ≠ "") :
    netFlameInitCache = ⟨-1, -1⟩
    ∧ ((tick_discovery refMac st devices valBody).1.pollOn = true ↔
        ∃ c1 d, get_data_http netFlameInitCache valBody = (c1, .ok d))
    ∧ (∀ c1 d, get_data_http netFlameInitCache valBody = (c1, .ok d) →
        tick_discovery refMac st devices valBody =
          ({ st with ip := discover_ip refMac devices, client := some c1,
                     discoveryOn := false, pollOn := true },
           [.logmsg "Searching stove on the LAN...",
            .connected (discover_ip refMac devices),
            .logmsg ("Connected to stove at " ++ discover_ip refMac devices)]))
    ∧ (∀ c1 e, get_data_http netFlameInitCache valBody = (c1, .error e) →
        tick_discovery refMac st devices valBody =
          ({ st with client := none, ip := "" },
           [.logmsg "Searching stove on the LAN...",
            .disconnected (errString e),
            .logmsg ("Connection error: " ++ errString e)])
        ∧ (tick_discovery refMac st devices valBody).1.discoveryOn = true
        ∧ (tick_discovery refMac st devices valBody).1.pollOn = false) := by
  refine ⟨rfl, ?_, ?_, ?_⟩
  · rcases hgd : get_data_http netFlameInitCache valBody with ⟨c1, res⟩
    cases res with
    | ok d =>
        rw [tick_discovery_unfold_ok refMac st devices valBody c1 d
              hstop hclient hmatch hgd]
        exact ⟨fun _ => ⟨c1, d, rfl⟩, fun _ => rfl⟩
    | error e =>
        rw [tick_discovery_unfold_err refMac st devices valBody c1 e
              hstop hclient hmatch hgd]
        constructor
        · intro h
          have hh : st.pollOn = true := h
          rw [hpoll] at hh
          exact Bool.noConfusion hh
        · rintro ⟨c2, d, hd⟩
          exact absurd (congrArg Prod.snd hd) (by simp)
  · intro c1 d hgd
    exact tick_discovery_unfold_ok refMac st devices valBody c1 d
      hstop hclient hmatch hgd
  · intro c1 e hgd
    have h := tick_discovery_unfold_err refMac st devices valBody c1 e
      hstop hclient hmatch hgd
    refine ⟨h, ?_, ?_⟩ <;> rw [h]
    · exact hdisc
    · exact hpoll

/-- C5 witness for the amended theorem: a concrete matching tick whose
validation read succeeds with `estado=0` reaches Polling with the
validation read's cache values. -/
theorem tick_discovery_amended_witness :
    tick_discovery "AA:BB:CC:DD:EE:FF" ⟨false, none, "", true, false⟩
        [("192.168.10.7", some "aa:bb:cc:dd:ee:ff")] (.ok "estado=0\n")
      = (⟨false, some ⟨0, -1⟩, "192.168.10.7", false, true⟩,
         [.logmsg "Searching stove on the LAN...",
          .connected "192.168.10.7",
          .logmsg "Connected to stove at 192.168.10.7"]) := by
  have h := (tick_discovery_amended "AA:BB:CC:DD:EE:FF"
      ⟨false, none, "", true, false⟩
      [("192.168.10.7", some "aa:bb:cc:dd:ee:ff")] (.ok "estado=0\n")
      rfl rfl rfl rfl (by decide)).2.2.1 ⟨0, -1⟩
      ⟨false, ⟨-1, "Error"⟩, ⟨-1, "Error"⟩,
       ⟨0, "Apagado", .POWER_OFF⟩, 0, 0, 0⟩ rfl
  exact h

/-- C6 (counterexample): an increase-temperature command with delta -100
on a device-reported setpoint of 20 sends the value -80 to the device,
far outside the claimed domain [12, 40]: the one-sided clamp of
`increase_temperature` does not enforce the lower bound. -/
theorem setpoint_clamp_counterexample :
    increase_temperature_sent netFlameInitCache
        "consigna_temperatura=20\n" (-100) = .ok (-80)
    ∧ ¬ (12 ≤ (-80 : ℚ)) := by
  constructor
  · have h : get_data_cached netFlameInitCache "consigna_temperatura=20\n"
        = (⟨-1, -1⟩,
           .ok ⟨false, ⟨-1, "Error"⟩, ⟨-1, "Error"⟩,
               ⟨-1, "Error obteniendo estado", .INVALID_STATE⟩,
               0, mkRat 20 1, 0⟩) := rfl
    rw [increase_temperature_sent]
    simp only [h]
    show Except.ok (new_temp_increase (mkRat 20 1) (-100)) = .ok (-80)
    have h20 : mkRat 20 1 = (20 : ℚ) := by norm_num [Rat.mkRat_eq_div]
    rw [h20]
    simp only [new_temp_increase]
    rw [if_neg (by norm_num)]
    norm_num
  · norm_num

/-- C6 (amended): each setpoint-delta operation clamps only one side —
increase-temperature at 40, decrease-temperature at 12, increase-power at
9, decrease-power at 1 — so the sent value respects that one bound for
every delta and reported setpoint; both bounds hold only when the
device-reported setpoint is already inside the domain and the delta is
nonnegative. -/
theorem setpoint_clamp_amended (c : ClientState) (raw : String)
    (delta : ℚ) (d : Stove_Data) (v : ℚ) (p : Int) :
    (increase_temperature_sent c raw delta = .ok v → v ≤ 40)
    ∧ (decrease_temperature_sent c raw delta = .ok v → 12 ≤ v)
    ∧ (increase_power_sent c raw = .ok p → p ≤ 9)
    ∧ (decrease_power_sent c raw = .ok p → 1 ≤ p)
    ∧ ((get_data_cached c raw).2 = .ok d → 0 ≤ delta →
        increase_temperature_sent c raw delta =
          .ok (new_temp_increase d.temperatureSetpoint delta)
        ∧ (12 ≤ d.temperatureSetpoint → d.temperatureSetpoint ≤ 40 →
            12 ≤ new_temp_increase d.temperatureSetpoint delta
            ∧ new_temp_increase d.temperatureSetpoint delta ≤ 40
            ∧ 12 ≤ new_temp_decrease d.temperatureSetpoint delta
            ∧ new_temp_decrease d.temperatureSetpoint delta ≤ 40)
        ∧ (1 ≤ d.powerSetpoint → d.powerSetpoint ≤ 9 →
            1 ≤ new_power_increase d.powerSetpoint
            ∧ new_power_increase d.powerSetpoint ≤ 9
            ∧ 1 ≤ new_power_decrease d.powerSetpoint
            ∧ new_power_decrease d.powerSetpoint ≤ 9)) := by
  rcases hgd : get_data_cached c raw with ⟨c1, res⟩
  have hti : ∀ sp dl, new_temp_increase sp dl ≤ 40 := by
    intro sp dl
    simp only [new_temp_increase]
    split <;> linarith
  have htd : ∀ sp dl, 12 ≤ new_temp_decrease sp dl := by
    intro sp dl
    simp only [new_temp_decrease]
    split <;> linarith
  have hpi : ∀ q, new_power_increase q ≤ 9 := by
    intro q
    simp only [new_power_increase]
    split <;> omega
  have hpd : ∀ q, 1 ≤ new_power_decrease q := by
    intro q
    simp only [new_power_decrease]
    split <;> omega
  refine ⟨?_, ?_, ?_, ?_, ?_⟩
  · rw [increase_temperature_sent]
    simp only [hgd]
    cases res with
    | ok dd =>
        intro h
        cases h
        exact hti _ _
    | error e => intro h; cases h
  · rw [decrease_temperature_sent]
    simp only [hgd]
    cases res with
    | ok dd =>
        intro h
        cases h
        exact htd _ _
    | error e => intro h; cases h
  · rw [increase_power_sent]
    simp only [hgd]
    cases res with
    | ok dd =>
        intro h
        cases h
        exact hpi _
    | error e => intro h; cases h
  · rw [decrease_power_sent]
    simp only [hgd]
    cases res with
    | ok dd =>
        intro h
        cases h
        exact hpd _
    | error e => intro h; cases h
  · intro hok hdelta
    have hres : res = Except.ok d := hok
    subst hres
    refine ⟨?_, ?_, ?_⟩
    · rw [increase_temperature_sent]
      simp only [hgd]
    · intro h12 h40
      refine ⟨?_, hti _ _, htd _ _, ?_⟩
      · simp only [new_temp_increase]
        split <;> linarith
      · simp only [new_temp_decrease]
        split <;> linarith
    · intro h1 h9
      refine ⟨?_, hpi _, hpd _, ?_⟩
      · simp only [new_power_increase]
        split <;> omega
      · simp only [new_power_decrease]
        split <;> omega

/-- C6 witness for the amended theorem: with reported setpoint 21.5 and
delta 0.1 the sent temperature is 21.6 ≤ 40. -/
theorem setpoint_clamp_amended_witness :
    increase_temperature_sent netFlameInitCache
        "consigna_temperatura=21.5\n" (mkRat 1 10) = .ok (mkRat 108 5)
    ∧ (mkRat 108 5 : ℚ) ≤ 40 := by
  have hpre : increase_temperature_sent netFlameInitCache
      "consigna_temperatura=21.5\n" (mkRat 1 10) = .ok (mkRat 108 5) := by
    have h : get_data_cached netFlameInitCache "consigna_temperatura=21.5\n"
        = (⟨-1, -1⟩,
           .ok ⟨false, ⟨-1, "Error"⟩, ⟨-1, "Error"⟩,
               ⟨-1, "Error obteniendo estado", .INVALID_STATE⟩,
               0, mkRat 43 2, 0⟩) := rfl
    rw [increase_temperature_sent]
    simp only [h]
    show Except.ok (new_temp_increase (mkRat 43 2) (mkRat 1 10))
      = .ok (mkRat 108 5)
    simp only [new_temp_increase]
    rw [if_neg (by norm_num [Rat.mkRat_eq_div])]
    congr 1
    norm_num [Rat.mkRat_eq_div]
  refine ⟨hpre, ?_⟩
  have h40 := (setpoint_clamp_amended netFlameInitCache
      "consigna_temperatura=21.5\n" (mkRat 1 10)
      ⟨false, ⟨-1, "Error"⟩, ⟨-1, "Error"⟩,
       ⟨-1, "Error obteniendo estado", .INVALID_STATE⟩,
       0, mkRat 43 2, 0⟩ (mkRat 108 5) 0).1 hpre
  exact h40

/-- C7: for a clock-read response with a valid `int_rx` epoch field, the
`Hora(...)` construction in `get_hour` passes four positional arguments
(hour, minute, HH:MM, date label from the timezone conversion) to the
three-field dataclass `Hora` (`hh`, `mm`, `raw`) and raises `TypeError`
for every conversion function; with `int_rx` absent it raises
`StoveOperationError` as claimed. -/
theorem get_hour_hora_type_error (tz : Int → MadridTime) :
    get_hour tz "int_rx=1700000000\n" = .error .typeError
    ∧ get_hour tz "" =
        .error (.operationMsg "int_rx not present in response: ")
    ∧ horaFields.length = 3
    ∧ (∀ t : MadridTime, (getHourHoraArgs t).length = 4) :=
  ⟨rfl, rfl, rfl, fun _ => rfl⟩

/-- C8: the telemetry body of the scenario decodes without raising to
power on = true, normalized state "powered on" (Estufa en marcha) from
raw state 7, temperature setpoint 21.5 (= 43/2), current temperature
20.8 (= 104/5), operative mode 1 "Temperatura"; the fields missing from
the body get their documented defaults (power setpoint 0 from
`consigna_potencia`, functional mode from default `modo_func` -1), and an
entirely empty body decodes to all defaults instead of failing. -/
theorem get_data_scenario :
    get_data_cached netFlameInitCache
        "estado=7\non_off=1\nconsigna_temperatura=21.5\ntemperatura=20.8\nmodo_operacion=1\n"
      = (⟨7, 1⟩,
         .ok { statusOn := true
               operativeMode := ⟨1, "Temperatura"⟩
               functionalMode := ⟨-1, "Error"⟩
               state := ⟨7, "Estufa en marcha", .POWERED_ON⟩
               powerSetpoint := 0
               temperatureSetpoint := mkRat 43 2
               currentTemperature := mkRat 104 5 })
    ∧ get_data_cached netFlameInitCache ""
      = (⟨-1, -1⟩,
         .ok { statusOn := false
               operativeMode := ⟨-1, "Error"⟩
               functionalMode := ⟨-1, "Error"⟩
               state := ⟨-1, "Error obteniendo estado", .INVALID_STATE⟩
               powerSetpoint := 0
               temperatureSetpoint := 0
               currentTemperature := 0 })
    ∧ mkRat 43 2 = (21.5 : ℚ)
    ∧ mkRat 104 5 = (20.8 : ℚ) := by
  refine ⟨rfl, rfl, ?_, ?_⟩ <;> norm_num [Rat.mkRat_eq_div]

theorem runCmds_length
    (ex : Nat → CmdAction → ClientState × Except String Unit) :
    ∀ (q : List Cmd) (c : ClientState) (i : Nat),
      (runCmds ex c i q).2.2.length = q.length := by
  intro q
  induction q with
  | nil => intro c i; rfl
  | cons cmd rest ih =>
      intro c i
      rw [runCmds]
      cases hdisp : dispatchCmd c.stoveInternalOperativeMode cmd with
      | none => simp only [List.length_cons, ih]
      | some a =>
          rcases hstep : ex i a with ⟨cs, sres⟩
          simp only [hstep]
          cases sres with
          | ok u => simp only [List.length_cons, ih]
          | error msg => simp only [List.length_cons, ih]

theorem runCmds_events_logmsg
    (ex : Nat → CmdAction → ClientState × Except String Unit) :
    ∀ (q : List Cmd) (c : ClientState) (i : Nat) (ev : Event),
      ev ∈ (runCmds ex c i q).2.1 → ∃ m, ev = .logmsg m := by
  intro q
  induction q with
  | nil => intro c i ev h; cases h
  | cons cmd rest ih =>
      intro c i ev h
      rw [runCmds] at h
      cases hdisp : dispatchCmd c.stoveInternalOperativeMode cmd with
      | none =>
          simp only [hdisp] at h
          exact ih c (i + 1) ev h
      | some a =>
          simp only [hdisp] at h
          rcases hstep : ex i a with ⟨cs, sres⟩
          simp only [hstep] at h
          cases hmsg : actionLogMsg a with
          | none =>
              simp only [hmsg] at h
              cases sres with
              | ok u => exact ih cs (i + 1) ev h
              | error msg =>
                  rcases List.mem_append.1 h with h1 | h2
                  · rcases List.mem_append.1 h1 with h3 | h4
                    · cases h3
                    · exact ⟨_, List.eq_of_mem_singleton h4⟩
                  · exact ih cs (i + 1) ev h2
          | some m =>
              simp only [hmsg] at h
              cases sres with
              | ok u =>
                  rcases List.mem_append.1 h with h1 | h2
                  · exact ⟨_, List.eq_of_mem_singleton h1⟩
                  · exact ih cs (i + 1) ev h2
              | error msg =>
                  rcases List.mem_append.1 h with h1 | h2
                  · rcases List.mem_append.1 h1 with h3 | h4
                    · exact ⟨_, List.eq_of_mem_singleton h3⟩
                    · exact ⟨_, List.eq_of_mem_singleton h4⟩
                  · exact ih cs (i + 1) ev h2

theorem runCmds_fail_log
    (ex : Nat → CmdAction → ClientState × Except String Unit) :
    ∀ (q : List Cmd) (c : ClientState) (i j : Nat) (a : CmdAction)
      (msg : String),
      (runCmds ex c i q).2.2.get? j = some (.failed a msg) →
      Event.logmsg ("Command error: " ++ msg) ∈ (runCmds ex c i q).2.1 := by
  intro q
  induction q with
  | nil => intro c i j a msg h; cases j <;> cases h
  | cons cmd rest ih =>
      intro c i j a msg h
      rw [runCmds] at h ⊢
      cases hdisp : dispatchCmd c.stoveInternalOperativeMode cmd with
      | none =>
          simp only [hdisp] at h ⊢
          cases j with
          | zero => simp at h
          | succ j => exact ih c (i + 1) j a msg h
      | some a' =>
          simp only [hdisp] at h ⊢
          rcases hstep : ex i a' with ⟨cs, sres⟩
          simp only [hstep] at h ⊢
          cases sres with
          | ok u =>
              cases j with
              | zero => simp at h
              | succ j =>
                  exact List.mem_append.2
                    (Or.inr (ih cs (i + 1) j a msg h))
          | error m =>
              cases j with
              | zero =>
                  simp only [List.get?_cons_zero, Option.some.injEq] at h
                  obtain ⟨rfl, rfl⟩ := CmdDisposition.failed.inj h.symm
                  refine List.mem_append.2 (Or.inl ?_)
                  exact List.mem_append.2 (Or.inr (List.mem_singleton_self _))
              | succ j =>
                  exact List.mem_append.2 (Or.inr (ih cs (i + 1) j a msg h))

theorem get_data_cached_snd (c c' : ClientState) (raw : String) :
    (get_data_cached c raw).2 = (get_data_cached c' raw).2 := by
  unfold get_data_cached
  rcases h1 : send_op_body raw 1002 with e | resp
  · simp only [h1]
  · simp only [h1]
    rcases h2 : pyParseInt (dictGetD resp.params "modo_operacion" "-1")
      with _ | mode
    · simp only [h2]
    · simp only [h2]
      rcases h3 : functional_mode_of resp.params mode with e | fm
      · simp only [h3]
      · simp only [h3]
        rcases h4 : pyParseInt (dictGetD resp.params "estado" "-1")
          with _ | estado
        · simp only [h4]
        · simp only [h4]

theorem get_data_cached_fst_ok (c c' : ClientState) (raw : String)
    (d : Stove_Data) (h : (get_data_cached c raw).2 = .ok d) :
    (get_data_cached c raw).1 = (get_data_cached c' raw).1 := by
  unfold get_data_cached at h ⊢
  rcases h1 : send_op_body raw 1002 with e | resp
  · simp only [h1] at h
    cases h
  · simp only [h1] at h ⊢
    rcases h2 : pyParseInt (dictGetD resp.params "modo_operacion" "-1")
      with _ | mode
    · simp only [h2] at h
      cases h
    · simp only [h2] at h ⊢
      rcases h3 : functional_mode_of resp.params mode with e | fm
      · simp only [h3] at h
        cases h
      · simp only [h3] at h ⊢
        rcases h4 : pyParseInt (dictGetD resp.params "estado" "-1")
          with _ | estado
        · simp only [h4] at h
          cases h
        · simp only [h4] at h ⊢

theorem get_data_http_snd (c c' : ClientState) (res : Except NetErr String) :
    (get_data_http c res).2 = (get_data_http c' res).2 := by
  cases res with
  | error e => rfl
  | ok raw => exact get_data_cached_snd c c' raw

theorem get_data_http_fst_ok (c c' : ClientState)
    (res : Except NetErr String) (d : Stove_Data)
    (h : (get_data_http c res).2 = .ok d) :
    (get_data_http c res).1 = (get_data_http c' res).1 := by
  cases res with
  | error e => simp [get_data_http] at h
  | ok raw => exact get_data_cached_fst_ok c c' raw d h

theorem tick_poll_reads_disp (tz : Int → MadridTime) (st : WorkerState)
    (c1 : ClientState) (cevs : List Event) (disp : List CmdDisposition)
    (dataRes alarmRes hourRes : Except NetErr String) :
    (tick_poll_reads tz st c1 cevs disp dataRes alarmRes hourRes).2.2.2
      = disp := by
  unfold tick_poll_reads
  rcases hgd : get_data_http c1 dataRes with ⟨c2, res⟩
  cases res with
  | error e => rfl
  | ok d =>
      rcases ha : get_alarms_http alarmRes with e | al
      · simp only [ha]
        rfl
      · simp only [ha]
        rcases hh : get_hour_http tz hourRes with e | hora
        · simp only [hh]
          rfl
        · simp only [hh]
          rcases hf : hora.find? (fun p => p.1 == "date") with _ | x
          · simp only [hf]
            rfl
          · simp only [hf]

/-- The outcome of the read phase does not depend on the drained
commands: the post state is identical for any drain cache, and the events
after the drain's own log lines are the same tail `T`. -/
theorem tick_poll_reads_indep (tz : Int → MadridTime) (st : WorkerState)
    (c1 c1' : ClientState) (cevs cevs' : List Event)
    (disp disp' : List CmdDisposition)
    (dataRes alarmRes hourRes : Except NetErr String) :
    (tick_poll_reads tz st c1 cevs disp dataRes alarmRes hourRes).1
      = (tick_poll_reads tz st c1' cevs' disp' dataRes alarmRes hourRes).1
    ∧ ∃ T : List Event,
        (tick_poll_reads tz st c1 cevs disp dataRes alarmRes hourRes).2.1
          = cevs ++ T
        ∧ (tick_poll_reads tz st c1' cevs' disp' dataRes alarmRes hourRes).2.1
          = cevs' ++ T := by
  have hsnd := get_data_http_snd c1 c1' dataRes
  unfold tick_poll_reads
  rcases hgd : get_data_http c1 dataRes with ⟨c2, res⟩
  rcases hgd' : get_data_http c1' dataRes with ⟨c2', res'⟩
  rw [hgd, hgd'] at hsnd
  have hres : res = res' := hsnd
  subst hres
  cases res with
  | error e =>
      exact ⟨rfl, [.disconnected (errString e),
        .logmsg ("Disconnected: " ++ errString e ++ ". Retrying...")],
        rfl, rfl⟩
  | ok d =>
      have hfst : c2 = c2' := by
        have h := get_data_http_fst_ok c1 c1' dataRes d (by rw [hgd])
        rw [hgd, hgd'] at h
        exact h
      subst hfst
      rcases ha : get_alarms_http alarmRes with e | al
      · simp only [ha]
        refine ⟨?_, [.disconnected (errString e),
          .logmsg ("Disconnected: " ++ errString e ++ ". Retrying...")],
          ?_, ?_⟩ <;> trivial
      · simp only [ha]
        rcases hh : get_hour_http tz hourRes with e | hora
        · simp only [hh]
          refine ⟨?_, [.disconnected (errString e),
            .logmsg ("Disconnected: " ++ errString e ++ ". Retrying...")],
            ?_, ?_⟩ <;> trivial
        · simp only [hh]
          rcases hf : hora.find? (fun p => p.1 == "date") with _ | x
          · simp only [hf]
            refine ⟨?_, [.disconnected "AttributeError: date",
              .logmsg ("Disconnected: " ++ "AttributeError: date"
                ++ ". Retrying...")], ?_, ?_⟩ <;> trivial
          · simp only [hf]
            refine ⟨?_, [.snapshotEv], ?_, ?_⟩ <;> trivial

theorem tick_poll_drain (tz : Int → MadridTime) (st : WorkerState)
    (c : ClientState) (queue : List Cmd)
    (ex : Nat → CmdAction → ClientState × Except String Unit)
    (dataRes alarmRes hourRes : Except NetErr String)
    (hstop : st.stop = false) (hclient : st.client = some c) :
    tick_poll tz st queue ex dataRes alarmRes hourRes =
      tick_poll_reads tz st (runCmds ex c 0 queue).1
        (runCmds ex c 0 queue).2.1 (runCmds ex c 0 queue).2.2
        dataRes alarmRes hourRes := by
  rw [tick_poll, hstop, hclient]
  simp only [Bool.false_eq_true, if_false]

/-- C9: in one drain of the command queue on a poll tick, every queued
command receives a disposition (a per-command failure does not abort the
drain), each failing command contributes a "Command error" log event,
and the post-tick worker state and the presence of a disconnected event
are independent of the per-command outcomes — in contrast to a failure
of the telemetry read of the same tick, which aborts the tick, emits a
disconnected event, stops polling, discards the client and restarts
discovery. -/
theorem poll_command_isolation (tz : Int → MadridTime) (st : WorkerState)
    (c : ClientState) (queue : List Cmd)
    (ex ex' : Nat → CmdAction → ClientState × Except String Unit)
    (dataRes alarmRes hourRes : Except NetErr String)
    (hstop : st.stop = false) (hclient : st.client = some c) :
    (tick_poll tz st queue ex dataRes alarmRes hourRes).2.2.2.length
      = queue.length
    ∧ (∀ j a msg,
        (tick_poll tz st queue ex dataRes alarmRes hourRes).2.2.2.get? j
          = some (.failed a msg) →
        Event.logmsg ("Command error: " ++ msg)
          ∈ (tick_poll tz st queue ex dataRes alarmRes hourRes).2.1)
    ∧ (tick_poll tz st queue ex dataRes alarmRes hourRes).1
        = (tick_poll tz st queue ex' dataRes alarmRes hourRes).1
    ∧ (∀ reason,
        Event.disconnected reason
            ∈ (tick_poll tz st queue ex dataRes alarmRes hourRes).2.1
          ↔ Event.disconnected reason
            ∈ (tick_poll tz st queue ex' dataRes alarmRes hourRes).2.1)
    ∧ (∀ e, dataRes = .error e →
        (tick_poll tz st queue ex dataRes alarmRes hourRes).1.pollOn = false
        ∧ (tick_poll tz st queue ex dataRes alarmRes hourRes).1.discoveryOn
            = true
        ∧ (tick_poll tz st queue ex dataRes alarmRes hourRes).1.client = none
        ∧ Event.disconnected (errString e)
            ∈ (tick_poll tz st queue ex dataRes alarmRes hourRes).2.1) := by
  have ht := tick_poll_drain tz st c queue ex dataRes alarmRes hourRes
    hstop hclient
  have ht' := tick_poll_drain tz st c queue ex' dataRes alarmRes hourRes
    hstop hclient
  obtain ⟨hstate, T, hT, hT'⟩ := tick_poll_reads_indep tz st
    (runCmds ex c 0 queue).1 (runCmds ex' c 0 queue).1
    (runCmds ex c 0 queue).2.1 (runCmds ex' c 0 queue).2.1
    (runCmds ex c 0 queue).2.2 (runCmds ex' c 0 queue).2.2
    dataRes alarmRes hourRes
  refine ⟨?_, ?_, ?_, ?_, ?_⟩
  · rw [ht, tick_poll_reads_disp]
    exact runCmds_length ex queue c 0
  · intro j a msg h
    rw [ht, tick_poll_reads_disp] at h
    rw [ht, hT]
    exact List.mem_append.2 (Or.inl (runCmds_fail_log ex queue c 0 j a msg h))
  · rw [ht, ht']
    exact hstate
  · intro reason
    rw [ht, ht', hT, hT']
    constructor
    · intro h
      rcases List.mem_append.1 h with h1 | h2
      · obtain ⟨m, hm⟩ := runCmds_events_logmsg ex queue c 0 _ h1
        exact Event.noConfusion hm
      · exact List.mem_append.2 (Or.inr h2)
    · intro h
      rcases List.mem_append.1 h with h1 | h2
      · obtain ⟨m, hm⟩ := runCmds_events_logmsg ex' queue c 0 _ h1
        exact Event.noConfusion hm
      · exact List.mem_append.2 (Or.inr h2)
  · rintro e rfl
    rw [ht]
    refine ⟨rfl, rfl, rfl, ?_⟩
    show Event.disconnected (errString e) ∈
      (runCmds ex c 0 queue).2.1 ++
        [.disconnected (errString e),
         .logmsg ("Disconnected: " ++ errString e ++ ". Retrying...")]
    exact List.mem_append.2 (Or.inr (List.mem_cons_self _ _))

/-- C9 witness: one queued increase command whose execution raises, on a
connected worker whose telemetry read then fails: the command is drained
(one disposition), and the telemetry failure disconnects. -/
theorem poll_command_isolation_witness :
    (tick_poll (fun _ => ⟨0, 0, "00:00", "x"⟩)
        ⟨false, some ⟨7, 0⟩, "192.168.1.50", false, true⟩
        [Cmd.inc 1] (fun _ _ => (⟨7, 0⟩, .error "boom"))
        (.error .transport) (.ok "") (.ok "")).2.2.2.length = 1
    ∧ (tick_poll (fun _ => ⟨0, 0, "00:00", "x"⟩)
        ⟨false, some ⟨7, 0⟩, "192.168.1.50", false, true⟩
        [Cmd.inc 1] (fun _ _ => (⟨7, 0⟩, .error "boom"))
        (.error .transport) (.ok "") (.ok "")).1.pollOn = false
    ∧ (tick_poll (fun _ => ⟨0, 0, "00:00", "x"⟩)
        ⟨false, some ⟨7, 0⟩, "192.168.1.50", false, true⟩
        [Cmd.inc 1] (fun _ _ => (⟨7, 0⟩, .error "boom"))
        (.error .transport) (.ok "") (.ok "")).1.client = none
    ∧ Event.disconnected (errString .transport) ∈
        (tick_poll (fun _ => ⟨0, 0, "00:00", "x"⟩)
          ⟨false, some ⟨7, 0⟩, "192.168.1.50", false, true⟩
          [Cmd.inc 1] (fun _ _ => (⟨7, 0⟩, .error "boom"))
          (.error .transport) (.ok "") (.ok "")).2.1 := by
  have H := poll_command_isolation (fun _ => ⟨0, 0, "00:00", "x"⟩)
      ⟨false, some ⟨7, 0⟩, "192.168.1.50", false, true⟩ ⟨7, 0⟩ [Cmd.inc 1]
      (fun _ _ => (⟨7, 0⟩, .error "boom")) (fun _ _ => (⟨7, 0⟩, .ok ()))
      (.error .transport) (.ok "") (.ok "") rfl rfl
  obtain ⟨h1, _, _, _, h5⟩ := H
  obtain ⟨ha, _, hc, hd⟩ := h5 .transport rfl
  exact ⟨h1, ha, hc, hd⟩

theorem sendLoop_posts_mono (opId : Int) (att : Nat → AttemptOutcome) :
    ∀ (rem attempt : Nat) (tr : SendTrace),
      tr.posts ≤ (sendLoop opId att attempt rem tr).2.posts := by
  intro rem
  induction rem with
  | zero => intro attempt tr; exact Nat.le_refl _
  | succ rem ih =>
      intro attempt tr
      rw [sendLoop]
      rcases hatt : att attempt with _ | ⟨s, body⟩
      · simp only [hatt]
        by_cases h : rem = 0
        · rw [if_pos h]
          exact Nat.le_succ _
        · rw [if_neg h]
          exact le_trans (Nat.le_succ _)
            (ih (attempt + 1) ⟨tr.posts + 1, tr.delays + 1, tr.parses⟩)
      · simp only [hatt]
        by_cases h1 : s = 401
        · rw [if_pos h1]
          exact Nat.le_succ _
        · rw [if_neg h1]
          by_cases h2 : 400 ≤ s ∧ s < 600
          · rw [if_pos h2]
            by_cases h : rem = 0
            · rw [if_pos h]
              exact Nat.le_succ _
            · rw [if_neg h]
              exact le_trans (Nat.le_succ _)
                (ih (attempt + 1) ⟨tr.posts + 1, tr.delays + 1, tr.parses⟩)
          · rw [if_neg h2]
            rcases hec : (parse_response opId body).error_code with _ | cc
            · simp only [hec]
              exact Nat.le_succ _
            · simp only [hec]
              by_cases h3 : cc = 0
              · rw [if_pos h3]
                exact Nat.le_succ _
              · rw [if_neg h3]
                exact Nat.le_succ _

theorem sendLoop_posts_one (opId : Int) (att : Nat → AttemptOutcome)
    (rem attempt : Nat) (tr : SendTrace) (hrem : 1 ≤ rem) :
    tr.posts + 1 ≤ (sendLoop opId att attempt rem tr).2.posts := by
  obtain ⟨rem', rfl⟩ : ∃ r, rem = r + 1 := ⟨rem - 1, by omega⟩
  rw [sendLoop]
  rcases hatt : att attempt with _ | ⟨s, body⟩
  · simp only [hatt]
    by_cases h : rem' = 0
    · rw [if_pos h]
    · rw [if_neg h]
      exact sendLoop_posts_mono opId att rem' (attempt + 1)
        ⟨tr.posts + 1, tr.delays + 1, tr.parses⟩
  · simp only [hatt]
    by_cases h1 : s = 401
    · rw [if_pos h1]
    · rw [if_neg h1]
      by_cases h2 : 400 ≤ s ∧ s < 600
      · rw [if_pos h2]
        by_cases h : rem' = 0
        · rw [if_pos h]
        · rw [if_neg h]
          exact sendLoop_posts_mono opId att rem' (attempt + 1)
            ⟨tr.posts + 1, tr.delays + 1, tr.parses⟩
      · rw [if_neg h2]
        rcases hec : (parse_response opId body).error_code with _ | cc
        · simp only [hec]
          exact Nat.le_refl _
        · simp only [hec]
          by_cases h3 : cc = 0
          · rw [if_pos h3]
          · rw [if_neg h3]

/-- C10: `StoveClient.__init__` accepts every `retries` argument,
including zero and negative values, coercing the effective retry count to
`max(1, int(retries))` — never rejecting it as a configuration error —
and with that count every `send_operation` call performs at least one
HTTP POST attempt. -/
theorem client_retries_coerced (r : Int) :
    clientInit r .auth_none none none = .ok { retries := (max 1 r).toNat }
    ∧ 1 ≤ (max 1 r).toNat
    ∧ ∀ (opId : Int) (att : Nat → AttemptOutcome),
        1 ≤ (send_operation (max 1 r).toNat opId att).2.posts := by
  have hge : 1 ≤ (max 1 r).toNat := by
    have h : (1 : Int) ≤ max 1 r := le_max_left 1 r
    omega
  refine ⟨rfl, hge, ?_⟩
  intro opId att
  have h := sendLoop_posts_one opId att (max 1 r).toNat 1 ⟨0, 0, 0⟩ hge
  rw [send_operation]
  exact h

end NetFlameIoT
